import Mathlib

/-!
# Verification of `elt_project/assets/parsers.py`

A shallow embedding of the parsing and conversion layer of the repository:

* `stream_excel_to_csv` (the zipped-XML streaming branch): modelled as a
  state-passing loop over row results, wrapped in an explicit `tryFinally`
  combinator mirroring Python's `try/finally` around `wb.close()`.
* `CsvParser.parse`: the pandas `read_csv` boolean conversion driven by
  `true_values`/`false_values`, followed by the `fillna(False)` post-pass
  over boolean-dtype columns.
* `CsvToExcelConverterParser.parse`: the illegal-XML-character sanitization
  applied to string cells before the table is written and returned.
* `ParserFactory`: tag-keyed registry with lowercasing on register and get.

Fallible operations return `Except`; Python exceptions are modelled as
`Except.error` values threaded through explicit state.
-/

/-- Errors raised while streaming a workbook to a delimited text file:
any I/O or structural failure surfaces as a single fatal error value. -/
inductive ConvError where
  | ioError (msg : String)
deriving DecidableEq, Repr

/-- The externally observable state of one `stream_excel_to_csv` call on the
zipped-XML path: whether the workbook handle is still open, and the sequence
of records written to the destination so far. -/
structure ConvState where
  wbOpen : Bool
  dest : List String
deriving DecidableEq, Repr

/-- Python's `try: body finally: fin`: the finalizer runs on the state left by
the body whether the body finished normally (`Except.ok`) or raised
(`Except.error`); the body's outcome is then propagated. -/
def runWithFinalizer {σ ε : Type} (body : σ → Except ε Unit × σ) (finalizer : σ → σ)
    (s : σ) : Except ε Unit × σ :=
  let r := body s
  (r.1, finalizer r.2)

/-- `if row and any(cell is not None for cell in row)` from
`stream_excel_to_csv`: the row tuple is non-empty and has a non-`None` cell. -/
def rowIsPopulated {α : Type} (row : List (Option α)) : Bool :=
  !row.isEmpty && row.any (fun cell => cell.isSome)

/-- The `for row in sheet.values` loop of `stream_excel_to_csv`: each element
of `rows` is the result of pulling one row from the streaming reader (which
may itself fail), `write` is `writer.writerow` (serialization to one record,
which may fail on I/O), and `acc` is the destination contents so far.  A
failure stops the loop and propagates; the destination keeps what was already
written (truncated output on failure). -/
def writeRowsLoop {α : Type} (write : List (Option α) → Except ConvError String) :
    List (Except ConvError (List (Option α))) → List String →
    Except ConvError Unit × List String
  | [], acc => (Except.ok (), acc)
  | Except.error e :: _, acc => (Except.error e, acc)
  | Except.ok row :: rest, acc =>
    if rowIsPopulated row then
      match write row with
      | Except.ok line => writeRowsLoop write rest (acc ++ [line])
      | Except.error e => (Except.error e, acc)
    else
      writeRowsLoop write rest acc

/-- The zipped-XML branch of `stream_excel_to_csv`, entered after
`openpyxl.load_workbook` succeeded (so the initial state has `wbOpen := true`):
the row loop runs inside `try`, and the `finally` block closes the workbook
handle (`wb.close()`; the following `gc.collect()` hint has no observable
state effect). -/
def streamZippedXmlToCsv {α : Type} (rows : List (Except ConvError (List (Option α))))
    (write : List (Option α) → Except ConvError String) : Except ConvError Unit × ConvState :=
  runWithFinalizer
    (fun s =>
      let r := writeRowsLoop write rows s.dest
      (r.1, { s with dest := r.2 }))
    (fun s => { s with wbOpen := false })
    { wbOpen := true, dest := [] }

theorem rowIsPopulated_eq_any {α : Type} (row : List (Option α)) :
    rowIsPopulated row = row.any (fun cell => cell.isSome) := by
  cases row with
  | nil => rfl
  | cons x xs => simp [rowIsPopulated]

theorem writeRowsLoop_ok {α : Type} (encodeRow : List (Option α) → String)
    (rows : List (List (Option α))) (acc : List String) :
    writeRowsLoop (fun r => Except.ok (encodeRow r)) (rows.map Except.ok) acc
      = (Except.ok (),
          acc ++ (rows.filter (fun r => r.any (fun cell => cell.isSome))).map encodeRow) := by
  induction rows generalizing acc with
  | nil => simp [writeRowsLoop]
  | cons row rest ih =>
    by_cases h : rowIsPopulated row = true
    · have h2 : (row.any fun cell => cell.isSome) = true := by
        rw [← rowIsPopulated_eq_any]; exact h
      simp [writeRowsLoop, h, h2, ih, List.filter_cons]
    · have h2 : (row.any fun cell => cell.isSome) = false := by
        rw [← rowIsPopulated_eq_any]; exact Bool.not_eq_true _ ▸ h
      simp [writeRowsLoop, h, h2, ih, List.filter_cons]

/-- C2: on the zipped-XML path, however row iteration and record writing
behave — any prefix of rows may arrive, iteration may raise, every write may
raise — the workbook handle is closed when the call returns: the `finally`
block runs on both the success and the error exit. -/
theorem workbook_closed_on_every_exit {α : Type}
    (rows : List (Except ConvError (List (Option α))))
    (write : List (Option α) → Except ConvError String) :
    (streamZippedXmlToCsv rows write).2.wbOpen = false := by
  simp [streamZippedXmlToCsv, runWithFinalizer]

/-- C3: when the streaming conversion succeeds, the destination holds exactly
one record per source row having at least one non-null cell, in source order
(each serialized by the writer), rows whose cells are all null are omitted,
and the destination record count equals the number of populated rows. -/
theorem streamed_records_are_populated_rows {α : Type}
    (rows : List (List (Option α))) (encodeRow : List (Option α) → String) :
    (streamZippedXmlToCsv (rows.map Except.ok) (fun r => Except.ok (encodeRow r))).1
        = Except.ok ()
    ∧ (streamZippedXmlToCsv (rows.map Except.ok) (fun r => Except.ok (encodeRow r))).2.dest
        = (rows.filter (fun r => r.any (fun cell => cell.isSome))).map encodeRow
    ∧ (streamZippedXmlToCsv (rows.map Except.ok) (fun r => Except.ok (encodeRow r))).2.dest.length
        = rows.countP (fun r => r.any (fun cell => cell.isSome)) := by
  refine ⟨?_, ?_, ?_⟩ <;>
    simp [streamZippedXmlToCsv, runWithFinalizer, writeRowsLoop_ok,
      List.countP_eq_length_filter]

/-! ## Parser registry (`ParserFactory`) -/

/-- The four concrete `Parser` subclasses of the module, plus arbitrary
caller-supplied classes (`otherV n`). -/
inductive ParserVariant where
  | csvV
  | psvV
  | excelV
  | csvToExcelV
  | otherV (n : Nat)
deriving DecidableEq, Repr

/-- A class object passed to `register_parser`: its parser variant and whether
`issubclass(parser_class, Parser)` holds for it. -/
structure ParserClass where
  variant : ParserVariant
  subclassOfParser : Bool
deriving DecidableEq, Repr

/-- A parser instance produced by `parser_class()` in `get_parser`; parser
variants are stateless, so an instance is identified by its variant. -/
structure ParserInstance where
  variant : ParserVariant
deriving DecidableEq, Repr

/-- The two `ValueError` failures of `ParserFactory`: registering a class that
is not a `Parser` subclass, and resolving a tag with no registered parser
(the message carries the tag as supplied by the caller). -/
inductive RegError where
  | invalidParserType
  | unknownFormat (tag : String)
deriving DecidableEq, Repr

/-- Python `str.lower()` on the tag strings used here (ASCII letters;
`Char.toLower` shifts `A`..`Z` by 32 and fixes every other character). -/
def lowerString (s : String) : String :=
  String.mk (s.data.map Char.toLower)

/-- The `self._parsers` dict, as an insertion-ordered association list. -/
def Registry : Type := List (String × ParserClass)

/-- `self._parsers[k] = v`: replace the value at an existing key in place, or
append a fresh binding. -/
def insertTag : List (String × ParserClass) → String → ParserClass →
    List (String × ParserClass)
  | [], k, v => [(k, v)]
  | (k0, v0) :: rest, k, v =>
    if k0 = k then (k, v) :: rest else (k0, v0) :: insertTag rest k v

/-- `self._parsers.get(k)`. -/
def lookupTag : List (String × ParserClass) → String → Option ParserClass
  | [], _ => none
  | (k0, v0) :: rest, k => if k0 = k then some v0 else lookupTag rest k

/-- `ParserFactory.register_parser`: reject a class that is not a `Parser`
subclass with `InvalidParserType` (leaving the dict untouched), otherwise
store it under the lowercased tag. -/
def registerParser (reg : Registry) (fileType : String) (cls : ParserClass) :
    Except RegError Unit × Registry :=
  if cls.subclassOfParser = false then
    (Except.error RegError.invalidParserType, reg)
  else
    (Except.ok (), insertTag reg (lowerString fileType) cls)

/-- `ParserFactory.get_parser`: look the lowercased tag up; `UnknownFormat`
if absent, otherwise a fresh instance of the registered class.  The dict is
returned unchanged in both cases. -/
def getParser (reg : Registry) (fileType : String) :
    Except RegError ParserInstance × Registry :=
  match lookupTag reg (lowerString fileType) with
  | some cls => (Except.ok { variant := cls.variant }, reg)
  | none => (Except.error (RegError.unknownFormat fileType), reg)

/-- The module-level factory after the four built-in registrations. -/
def initRegistry : Registry :=
  (registerParser
    (registerParser
      (registerParser
        (registerParser [] "csv" ⟨ParserVariant.csvV, true⟩).2
        "psv" ⟨ParserVariant.psvV, true⟩).2
      "excel" ⟨ParserVariant.excelV, true⟩).2
    "csv_to_excel" ⟨ParserVariant.csvToExcelV, true⟩).2

/-- Every key of the registry is already lowercase. -/
def registryKeysLower (reg : Registry) : Bool :=
  reg.all (fun kv => lowerString kv.1 == kv.1)

theorem char_toNat_ofNat_of_lt (n : Nat) (h : n < 55296) :
    (Char.ofNat n).toNat = n := by
  have hv : n.isValidChar := Or.inl h
  unfold Char.ofNat
  rw [dif_pos hv]
  rfl

theorem char_toLower_idem (c : Char) :
    Char.toLower (Char.toLower c) = Char.toLower c := by
  by_cases h : c.toNat ≥ 65 ∧ c.toNat ≤ 90
  · have h1 : c.toLower = Char.ofNat (c.toNat + 32) := by
      simp only [Char.toLower]
      rw [if_pos h]
    have h2 : (Char.ofNat (c.toNat + 32)).toNat = c.toNat + 32 :=
      char_toNat_ofNat_of_lt _ (by omega)
    rw [h1]
    simp only [Char.toLower]
    rw [if_neg (by rw [h2]; omega)]
  · have h1 : c.toLower = c := by
      simp only [Char.toLower]
      rw [if_neg h]
    rw [h1, h1]

theorem lowerString_idem (s : String) :
    lowerString (lowerString s) = lowerString s := by
  unfold lowerString
  refine congrArg String.mk ?_
  simp only [String.data]
  rw [List.map_map]
  exact List.map_congr_left (fun c _ => char_toLower_idem c)

theorem lookupTag_insertTag_self (reg : List (String × ParserClass))
    (k : String) (v : ParserClass) :
    lookupTag (insertTag reg k v) k = some v := by
  induction reg with
  | nil => simp [insertTag, lookupTag]
  | cons kv rest ih =>
    by_cases h : kv.1 = k
    · simp [insertTag, lookupTag, h]
    · simp [insertTag, lookupTag, h, ih]

theorem insertTag_keys_of_mem (reg : List (String × ParserClass))
    (k : String) (v : ParserClass) (h : k ∈ reg.map Prod.fst) :
    (insertTag reg k v).map Prod.fst = reg.map Prod.fst := by
  induction reg with
  | nil => simp at h
  | cons kv rest ih =>
    by_cases hk : kv.1 = k
    · simp [insertTag, hk]
    · have hmem : k ∈ rest.map Prod.fst := by
        rcases List.mem_map.mp h with ⟨p, hp, hpk⟩
        rcases List.mem_cons.mp hp with rfl | hprest
        · exact absurd hpk hk
        · exact List.mem_map.mpr ⟨p, hprest, hpk⟩
      simp [insertTag, hk, ih hmem]

theorem registryKeysLower_insertTag (reg : List (String × ParserClass))
    (k : String) (v : ParserClass) (hreg : registryKeysLower reg = true)
    (hk : lowerString k = k) :
    registryKeysLower (insertTag reg k v) = true := by
  induction reg with
  | nil => simp [insertTag, registryKeysLower, hk]
  | cons kv rest ih =>
    simp only [registryKeysLower, List.all_cons, Bool.and_eq_true] at hreg
    by_cases h : kv.1 = k
    · simp only [insertTag, if_pos h]
      simp [registryKeysLower, hk]
      intro a b hab
      have := hreg.2
      simp only [registryKeysLower, List.all_eq_true] at this
      have hb := this (a, b) hab
      exact eq_of_beq hb
    · simp only [insertTag, if_neg h]
      have htail := ih hreg.2
      simp only [registryKeysLower, List.all_cons, Bool.and_eq_true]
      exact ⟨hreg.1, htail⟩

theorem mem_keys_insertTag (reg : List (String × ParserClass))
    (k : String) (v : ParserClass) :
    k ∈ (insertTag reg k v).map Prod.fst := by
  induction reg with
  | nil => simp [insertTag]
  | cons kv rest ih =>
    by_cases h : kv.1 = k <;> simp [insertTag, h, ih]

/-- The tag list of the registry, in insertion order. -/
def registryKeys (reg : Registry) : List String :=
  reg.map Prod.fst

/-- C5: registry resolution is case-insensitive — for every registry state and
tag, `get_parser` succeeds on the tag exactly when it succeeds on the
lowercased tag, with the same resulting parser variant; in particular
resolving `CSV` and `csv` on the built-in registry both yield the CSV parser
variant. -/
theorem resolve_case_insensitive :
    (∀ (reg : Registry) (t : String) (p : ParserInstance),
        (getParser reg t).1 = Except.ok p
          ↔ (getParser reg (lowerString t)).1 = Except.ok p)
    ∧ (getParser initRegistry "CSV").1 = Except.ok ⟨ParserVariant.csvV⟩
    ∧ (getParser initRegistry "csv").1 = Except.ok ⟨ParserVariant.csvV⟩ := by
  refine ⟨?_, by rfl, by rfl⟩
  intro reg t p
  unfold getParser
  rw [lowerString_idem]
  cases h : lookupTag reg (lowerString t) <;> simp

theorem resolve_case_insensitive_witness :
    (getParser initRegistry "CSV").1 = Except.ok ⟨ParserVariant.csvV⟩
    ∧ (getParser initRegistry (lowerString "CSV")).1
        = Except.ok ⟨ParserVariant.csvV⟩ := by
  refine ⟨resolve_case_insensitive.2.1, ?_⟩
  exact (resolve_case_insensitive.1 initRegistry "CSV" ⟨ParserVariant.csvV⟩).mp
    resolve_case_insensitive.2.1

/-- C6: resolving a tag with no registered mapping (after lowercasing) fails
with the `UnknownFormat` error carrying that tag, and has no side effect: the
registry coming out of the call is the registry that went in. -/
theorem resolve_unknown_fails_without_side_effects :
    ∀ (reg : Registry) (t : String),
      lookupTag reg (lowerString t) = none →
        (getParser reg t).1 = Except.error (RegError.unknownFormat t)
        ∧ (getParser reg t).2 = reg := by
  intro reg t h
  unfold getParser
  rw [h]
  exact ⟨rfl, rfl⟩

theorem resolve_unknown_fails_without_side_effects_witness :
    lookupTag initRegistry (lowerString "unknown_format") = none
    ∧ (getParser initRegistry "unknown_format").1
        = Except.error (RegError.unknownFormat "unknown_format")
    ∧ (getParser initRegistry "unknown_format").2 = initRegistry := by
  refine ⟨by decide, ?_, ?_⟩
  · exact (resolve_unknown_fails_without_side_effects initRegistry
      "unknown_format" (by decide)).1
  · exact (resolve_unknown_fails_without_side_effects initRegistry
      "unknown_format" (by decide)).2

/-- C7: duplicate registration is last-registration-wins — for any registry,
tag and two conforming classes, both `register_parser` calls succeed (the
replacement is silent, no error), and a subsequent `get_parser` on the tag
returns an instance of the second class's variant. -/
theorem register_duplicate_last_wins :
    ∀ (reg : Registry) (t : String) (a b : ParserClass),
      a.subclassOfParser = true → b.subclassOfParser = true →
        (registerParser reg t a).1 = Except.ok ()
        ∧ (registerParser (registerParser reg t a).2 t b).1 = Except.ok ()
        ∧ (getParser (registerParser (registerParser reg t a).2 t b).2 t).1
            = Except.ok ⟨b.variant⟩ := by
  intro reg t a b ha hb
  simp only [registerParser, ha, Bool.true_eq_false, if_false, hb]
  refine ⟨trivial, trivial, ?_⟩
  unfold getParser
  rw [lookupTag_insertTag_self]

theorem register_duplicate_last_wins_witness :
    (registerParser initRegistry "csv" ⟨ParserVariant.csvV, true⟩).1 = Except.ok ()
    ∧ (getParser
        (registerParser
          (registerParser initRegistry "csv" ⟨ParserVariant.csvV, true⟩).2
          "csv" ⟨ParserVariant.psvV, true⟩).2 "csv").1
        = Except.ok ⟨ParserVariant.psvV⟩ := by
  refine ⟨?_, ?_⟩
  · exact (register_duplicate_last_wins initRegistry "csv"
      ⟨ParserVariant.csvV, true⟩ ⟨ParserVariant.psvV, true⟩ rfl rfl).1
  · exact (register_duplicate_last_wins initRegistry "csv"
      ⟨ParserVariant.csvV, true⟩ ⟨ParserVariant.psvV, true⟩ rfl rfl).2.2

/-- C8: `register_parser` fails with `InvalidParserType` exactly when the
supplied class is not a `Parser` subclass; on that failure the registry is
unchanged (the non-conforming mapping is not stored), and for a conforming
class the call succeeds and the mapping is stored under the lowercased tag. -/
theorem register_invalid_parser_type :
    ∀ (reg : Registry) (t : String) (cls : ParserClass),
      ((registerParser reg t cls).1 = Except.error RegError.invalidParserType
          ↔ cls.subclassOfParser = false)
      ∧ (cls.subclassOfParser = false → (registerParser reg t cls).2 = reg)
      ∧ (cls.subclassOfParser = true →
          (registerParser reg t cls).1 = Except.ok ()
          ∧ lookupTag (registerParser reg t cls).2 (lowerString t) = some cls) := by
  intro reg t cls
  cases hc : cls.subclassOfParser with
  | false => simp [registerParser, hc]
  | true => simp [registerParser, hc, lookupTag_insertTag_self]

theorem register_invalid_parser_type_witness :
    (registerParser initRegistry "bad" ⟨ParserVariant.otherV 0, false⟩).1
        = Except.error RegError.invalidParserType
    ∧ (registerParser initRegistry "bad" ⟨ParserVariant.otherV 0, false⟩).2
        = initRegistry
    ∧ lookupTag (registerParser initRegistry "good" ⟨ParserVariant.otherV 1, true⟩).2
        (lowerString "good") = some ⟨ParserVariant.otherV 1, true⟩ := by
  refine ⟨?_, ?_, ?_⟩
  · exact (register_invalid_parser_type initRegistry "bad"
      ⟨ParserVariant.otherV 0, false⟩).1.mpr rfl
  · exact (register_invalid_parser_type initRegistry "bad"
      ⟨ParserVariant.otherV 0, false⟩).2.1 rfl
  · exact ((register_invalid_parser_type initRegistry "good"
      ⟨ParserVariant.otherV 1, true⟩).2.2 rfl).2

/-- C9: every key stored in the registry is lowercase — the built-in registry
satisfies it, `register_parser` preserves it on every input (it stores the
lowercased tag), and `get_parser` never mutates the registry; consequently a
registration under `CSV` is resolved by `csv`, and registering under `CSV`
after `csv` replaces the existing mapping (the key set is unchanged and the
later class wins) rather than coexisting with it. -/
theorem registry_keys_lowercase_invariant :
    registryKeysLower initRegistry = true
    ∧ (∀ (reg : Registry) (t : String) (cls : ParserClass),
        registryKeysLower reg = true →
        registryKeysLower (registerParser reg t cls).2 = true)
    ∧ (∀ (reg : Registry) (t : String), (getParser reg t).2 = reg)
    ∧ (∀ (reg : Registry) (cls : ParserClass),
        cls.subclassOfParser = true →
        (getParser (registerParser reg "CSV" cls).2 "csv").1
          = Except.ok ⟨cls.variant⟩)
    ∧ (∀ (reg : Registry) (c d : ParserClass),
        c.subclassOfParser = true → d.subclassOfParser = true →
        registryKeys (registerParser (registerParser reg "csv" d).2 "CSV" c).2
          = registryKeys (registerParser reg "csv" d).2
        ∧ (getParser
            (registerParser (registerParser reg "csv" d).2 "CSV" c).2 "csv").1
          = Except.ok ⟨c.variant⟩) := by
  have hCSV : lowerString "CSV" = "csv" := by decide
  have hcsv : lowerString "csv" = "csv" := by decide
  refine ⟨by decide, ?_, ?_, ?_, ?_⟩
  · intro reg t cls hreg
    cases hc : cls.subclassOfParser with
    | false => simpa [registerParser, hc] using hreg
    | true =>
      simp only [registerParser, hc, Bool.true_eq_false, if_false]
      exact registryKeysLower_insertTag reg (lowerString t) cls hreg
        (lowerString_idem t)
  · intro reg t
    unfold getParser
    cases h : lookupTag reg (lowerString t) <;> simp
  · intro reg cls hc
    simp only [registerParser, hc, Bool.true_eq_false, if_false]
    unfold getParser
    rw [hcsv, hCSV, lookupTag_insertTag_self]
  · intro reg c d hc hd
    simp only [registerParser, hc, hd, Bool.true_eq_false, if_false]
    rw [hcsv, hCSV]
    constructor
    · exact insertTag_keys_of_mem _ "csv" c (mem_keys_insertTag reg "csv" d)
    · unfold getParser
      rw [hcsv, lookupTag_insertTag_self]

theorem registry_keys_lowercase_invariant_witness :
    registryKeysLower initRegistry = true
    ∧ registryKeysLower
        (registerParser initRegistry "NEW" ⟨ParserVariant.otherV 5, true⟩).2 = true
    ∧ (getParser initRegistry "csv").2 = initRegistry
    ∧ (getParser
        (registerParser initRegistry "CSV" ⟨ParserVariant.otherV 2, true⟩).2
        "csv").1 = Except.ok ⟨ParserVariant.otherV 2⟩
    ∧ (getParser
        (registerParser
          (registerParser initRegistry "csv" ⟨ParserVariant.otherV 3, true⟩).2
          "CSV" ⟨ParserVariant.otherV 4, true⟩).2 "csv").1
        = Except.ok ⟨ParserVariant.otherV 4⟩ := by
  refine ⟨registry_keys_lowercase_invariant.1, ?_, ?_, ?_, ?_⟩
  · exact registry_keys_lowercase_invariant.2.1 initRegistry "NEW"
      ⟨ParserVariant.otherV 5, true⟩ registry_keys_lowercase_invariant.1
  · exact registry_keys_lowercase_invariant.2.2.1 initRegistry "csv"
  · exact registry_keys_lowercase_invariant.2.2.2.1 initRegistry
      ⟨ParserVariant.otherV 2, true⟩ rfl
  · exact (registry_keys_lowercase_invariant.2.2.2.2 initRegistry
      ⟨ParserVariant.otherV 4, true⟩ ⟨ParserVariant.otherV 3, true⟩ rfl rfl).2

/-! ## CsvToExcelConverterParser: illegal-XML-character sanitization -/

/-- A cell of the in-memory table produced by `pd.read_csv` inside
`CsvToExcelConverterParser.parse`: a text cell (Python `str`, the only kind
`isinstance(s, str)` matches) or a non-text cell (numeric, boolean or
null/NaN — all passed through untouched by `_sanitize_string`). -/
inductive Value where
  | str (s : String)
  | numV (n : Int)
  | boolV (x : Bool)
  | nullV
deriving DecidableEq, Repr

/-- The character class of `illegal_xml_chars_re`, i.e. the regex
`[\x00-\x08\x0b\x0c\x0e-\x1f\x7f-\x84\x86-\x9f﷐-﷟￾￿]`
as a predicate on one character. -/
def illegalXmlChar (c : Char) : Bool :=
  decide (c.toNat ≤ 0x08
    ∨ (0x0b ≤ c.toNat ∧ c.toNat ≤ 0x0c)
    ∨ (0x0e ≤ c.toNat ∧ c.toNat ≤ 0x1f)
    ∨ (0x7f ≤ c.toNat ∧ c.toNat ≤ 0x84)
    ∨ (0x86 ≤ c.toNat ∧ c.toNat ≤ 0x9f)
    ∨ (0xfdd0 ≤ c.toNat ∧ c.toNat ≤ 0xfddf)
    ∨ c.toNat = 0xfffe ∨ c.toNat = 0xffff)

/-- `illegal_xml_chars_re.sub('', s)`: delete every occurrence of the matched
characters, keeping all others in order. -/
def sanitizeString (s : String) : String :=
  String.mk (s.data.filter (fun c => !illegalXmlChar c))

/-- `_sanitize_string`: sanitize Python `str` cells, return every other cell
unchanged. -/
def sanitizeValue : Value → Value
  | Value.str s => Value.str (sanitizeString s)
  | v => v

/-- Whether a cell is a text cell still containing an illegal XML character. -/
def valueHasIllegalChar : Value → Bool
  | Value.str s => s.data.any illegalXmlChar
  | _ => false

/-- The observable outcome of `CsvToExcelConverterParser.parse` on an input
file whose `pd.read_csv` result is `table`: the table written to the `.xlsx`
output (`df.to_excel`) and the table returned to the caller. -/
structure CsvToExcelOutcome where
  written : List (List Value)
  returned : List (List Value)
deriving DecidableEq, Repr

/-- `CsvToExcelConverterParser.parse` after the CSV read: the frame is
rebound to `df.applymap(_sanitize_string)`, written to the spreadsheet, and
that same frame is returned. -/
def csvToExcelParse (table : List (List Value)) : CsvToExcelOutcome :=
  let sanitized := table.map (fun row => row.map sanitizeValue)
  { written := sanitized, returned := sanitized }

/-- Cell sanitization as the specification words it: from every text-typed
cell remove exactly the characters in `U+0000`–`U+0008`, `U+000B`–`U+000C`,
`U+000E`–`U+001F`, `U+007F`–`U+0084`, `U+0086`–`U+009F`, `U+FDD0`–`U+FDDF`,
`U+FFFE` and `U+FFFF`; pass every non-text cell through unchanged. -/
def specSanitizeValue : Value → Value
  | Value.str s => Value.str (String.mk (s.data.filter (fun c =>
      !decide ((0x00 ≤ c.toNat ∧ c.toNat ≤ 0x08)
        ∨ (0x0b ≤ c.toNat ∧ c.toNat ≤ 0x0c)
        ∨ (0x0e ≤ c.toNat ∧ c.toNat ≤ 0x1f)
        ∨ (0x7f ≤ c.toNat ∧ c.toNat ≤ 0x84)
        ∨ (0x86 ≤ c.toNat ∧ c.toNat ≤ 0x9f)
        ∨ (0xfdd0 ≤ c.toNat ∧ c.toNat ≤ 0xfddf)
        ∨ c.toNat = 0xfffe ∨ c.toNat = 0xffff))))
  | v => v

theorem sanitizeValue_eq_spec (v : Value) : sanitizeValue v = specSanitizeValue v := by
  cases v with
  | str s =>
    simp only [sanitizeValue, specSanitizeValue, sanitizeString]
    refine congrArg (fun l => Value.str (String.mk l)) ?_
    refine List.filter_congr ?_
    intro c _
    refine congrArg Bool.not ?_
    unfold illegalXmlChar
    exact decide_eq_decide.mpr (by omega)
  | numV n => rfl
  | boolV x => rfl
  | nullV => rfl

theorem sanitizeValue_no_illegal (v : Value) :
    valueHasIllegalChar (sanitizeValue v) = false := by
  cases v with
  | str s =>
    simp only [sanitizeValue, valueHasIllegalChar, sanitizeString]
    rw [List.any_eq_false]
    intro c hc
    have := List.of_mem_filter hc
    simpa using this
  | numV n => rfl
  | boolV x => rfl
  | nullV => rfl

/-- C4: before the spreadsheet file is written, every text-typed cell of the
written table has exactly the characters of the illegal-XML ranges
`U+0000`–`U+0008`, `U+000B`–`U+000C`, `U+000E`–`U+001F`, `U+007F`–`U+0084`,
`U+0086`–`U+009F`, `U+FDD0`–`U+FDDF`, `U+FFFE`, `U+FFFF` removed (all
occurrences, nothing else), and every non-text cell passes through
unchanged: the written table is the cell-wise spec-sanitized source table. -/
theorem written_table_is_spec_sanitized (table : List (List Value)) :
    (csvToExcelParse table).written
      = table.map (fun row => row.map specSanitizeValue) := by
  unfold csvToExcelParse
  refine List.map_congr_left ?_
  intro row _
  exact List.map_congr_left (fun v _ => sanitizeValue_eq_spec v)

/-- C10: the table returned by `CsvToExcelConverterParser.parse` is the
sanitized table itself — identical to the written table and to the cell-wise
sanitization of the raw parse result — so no text cell observable by the
caller still contains an illegal XML character. -/
theorem returned_table_is_sanitized (table : List (List Value)) :
    (csvToExcelParse table).returned = (csvToExcelParse table).written
    ∧ (csvToExcelParse table).returned
        = table.map (fun row => row.map sanitizeValue)
    ∧ (csvToExcelParse table).returned.all
        (fun row => row.all (fun v => !valueHasIllegalChar v)) = true := by
  refine ⟨rfl, rfl, ?_⟩
  simp only [csvToExcelParse, List.all_eq_true]
  intro row hrow
  rcases List.mem_map.mp hrow with ⟨srcRow, _, rfl⟩
  intro v hv
  rcases List.mem_map.mp hv with ⟨srcV, _, rfl⟩
  show (!valueHasIllegalChar (sanitizeValue srcV)) = true
  rw [sanitizeValue_no_illegal]
  rfl

/-! ## CsvParser: boolean column coercion

`CsvParser.parse` delegates to `pd.read_csv(file_path, true_values=[...],
false_values=[...])` and then runs
`df.fillna({col: False for col in df.select_dtypes(include='bool').columns})`.
The pandas tokenizer converts one column to boolean dtype as follows (the
`_try_bool_flex_nogil` routine, with `na_filter` on — the default, nothing
in `CsvParser.parse` disables it): each token is checked against the default
NA set FIRST, then the `true_values` set, then the `false_values` set; if
every token is recognized and none was NA the column gets boolean dtype, if
an NA occurred the column degrades to object dtype with genuine nulls (bools
mixed with NaN), and if any token is unrecognized boolean conversion is
abandoned altogether (here the fallback column keeps its tokens as text,
with NA tokens as nulls; numeric inference of the fallback is irrelevant to
the boolean claims and is not modelled).  `fillna` then touches exactly the
boolean-dtype columns — and a boolean-dtype column can never hold an NaN, so
that post-pass is provably a no-op (`parseColumn_eq_convertColumn`).
Consequence: the empty string, although listed in `false_values`, is caught
by the NA check first and survives as a null in an object-dtype column that
the post-pass never touches, contrary to the comments in `CsvParser.parse`
(`Empty strings from the CSV will be treated as False ...`). -/

/-- `true_values=['true', 'True', 'TRUE', '1']`. -/
def trueTokens : List String := ["true", "True", "TRUE", "1"]

/-- `false_values=['false', 'False', 'FALSE', '0', '']`. -/
def falseTokens : List String := ["false", "False", "FALSE", "0", ""]

/-- Default NA tokens of the pandas tokenizer (those relevant here; with
`na_filter` on they are checked before the `true_values` and `false_values`
sets, so the empty string — although also a `false_values` entry — is
classified NA, never false). -/
def naTokens : List String :=
  ["", "#N/A", "N/A", "NA", "NaN", "nan", "NULL", "null", "None", "n/a"]

/-- One cell of a parsed column. -/
inductive Cell where
  | boolCell (x : Bool)
  | strCell (x : String)
  | nullCell
deriving DecidableEq, Repr

/-- Classification of one token by `_try_bool_flex_nogil`. -/
inductive BoolFlex where
  | isTrue
  | isFalse
  | isNA
  | unrecognized
deriving DecidableEq, Repr

/-- One token's classification, in the checking order of
`_try_bool_flex_nogil` with `na_filter` on: the NA hashset first, then the
true hashset, then the false hashset. -/
def classifyBoolToken (t : String) : BoolFlex :=
  if t ∈ naTokens then BoolFlex.isNA
  else if t ∈ trueTokens then BoolFlex.isTrue
  else if t ∈ falseTokens then BoolFlex.isFalse
  else BoolFlex.unrecognized

/-- The cell produced for one token when boolean conversion is attempted. -/
def flexCell (t : String) : Cell :=
  match classifyBoolToken t with
  | BoolFlex.isTrue => Cell.boolCell true
  | BoolFlex.isFalse => Cell.boolCell false
  | _ => Cell.nullCell

/-- Boolean conversion of a whole column: succeeds iff no token is
unrecognized. -/
def tryBoolFlex (toks : List String) : Option (List Cell) :=
  if toks.all (fun t => classifyBoolToken t != BoolFlex.unrecognized) then
    some (toks.map flexCell)
  else none

/-- The inferred dtype of a column: boolean, or anything else (`object`
covering text and null-bearing columns; finer numeric dtypes are irrelevant
to these claims). -/
inductive ColumnDtype where
  | booleanD
  | objectD
deriving DecidableEq, Repr

/-- A token of the fallback (non-boolean) column: NA tokens become nulls,
everything else stays text. -/
def stringCell (t : String) : Cell :=
  if t ∈ naTokens then Cell.nullCell else Cell.strCell t

/-- Column conversion in `pd.read_csv`: boolean dtype exactly when every
token was recognized as true/false; a column with an NA amid booleans, or
with any unrecognized token, is not boolean dtype. -/
def convertColumn (toks : List String) : ColumnDtype × List Cell :=
  match tryBoolFlex toks with
  | some cells =>
    if cells.all (fun c => c != Cell.nullCell) then (ColumnDtype.booleanD, cells)
    else (ColumnDtype.objectD, cells)
  | none => (ColumnDtype.objectD, toks.map stringCell)

/-- `fillna(False)` on one cell. -/
def fillFalse (c : Cell) : Cell :=
  if c = Cell.nullCell then Cell.boolCell false else c

/-- The `df.fillna({col: False for col in df.select_dtypes(include='bool')})`
post-pass on one column: only boolean-dtype columns are touched. -/
def boolFillPass (col : ColumnDtype × List Cell) : ColumnDtype × List Cell :=
  if col.1 = ColumnDtype.booleanD then (col.1, col.2.map fillFalse) else col

/-- `CsvParser.parse` on one column of raw tokens. -/
def parseColumn (toks : List String) : ColumnDtype × List Cell :=
  boolFillPass (convertColumn toks)

/-- `CsvParser.parse` on a whole comma-delimited table, column-wise. -/
def csvParse (columns : List (List String)) : List (ColumnDtype × List Cell) :=
  columns.map parseColumn

theorem parseColumn_fst (toks : List String) :
    (parseColumn toks).1 = (convertColumn toks).1 := by
  unfold parseColumn boolFillPass
  by_cases h : (convertColumn toks).1 = ColumnDtype.booleanD <;> simp [h]

theorem convertColumn_boolean (toks : List String)
    (h : (convertColumn toks).1 = ColumnDtype.booleanD) :
    (convertColumn toks).2 = toks.map flexCell
    ∧ ∀ t ∈ toks, t ∉ naTokens ∧ (t ∈ trueTokens ∨ t ∈ falseTokens) := by
  unfold convertColumn at h ⊢
  cases htb : tryBoolFlex toks with
  | none =>
    rw [htb] at h
    simp at h
  | some cells =>
    rw [htb] at h
    dsimp only at h ⊢
    have hcells : cells = toks.map flexCell := by
      unfold tryBoolFlex at htb
      by_cases hg : (toks.all fun t => classifyBoolToken t != BoolFlex.unrecognized) = true
      · rw [if_pos hg] at htb
        exact (Option.some.inj htb).symm
      · rw [if_neg hg] at htb
        cases htb
    by_cases hall : (cells.all fun c => c != Cell.nullCell) = true
    · rw [if_pos hall]
      refine ⟨hcells, ?_⟩
      intro t ht
      have hcell : flexCell t ≠ Cell.nullCell := by
        have hmem : flexCell t ∈ cells := hcells ▸ List.mem_map_of_mem flexCell ht
        have hb := List.all_eq_true.mp hall _ hmem
        simpa [bne_iff_ne] using hb
      have hna : t ∉ naTokens := by
        intro h3
        apply hcell
        simp [flexCell, classifyBoolToken, h3]
      refine ⟨hna, ?_⟩
      by_cases h1 : t ∈ trueTokens
      · exact Or.inl h1
      · by_cases h2 : t ∈ falseTokens
        · exact Or.inr h2
        · exfalso
          apply hcell
          simp [flexCell, classifyBoolToken, hna, h1, h2]
    · rw [if_neg hall] at h
      simp at h

theorem flexCell_fill (t : String) (hna : t ∉ naTokens)
    (h : t ∈ trueTokens ∨ t ∈ falseTokens) :
    fillFalse (flexCell t) = Cell.boolCell (decide (t ∈ trueTokens)) := by
  by_cases ht : t ∈ trueTokens
  · simp [flexCell, classifyBoolToken, hna, ht, fillFalse]
  · have hf : t ∈ falseTokens := h.resolve_left ht
    simp [flexCell, classifyBoolToken, hna, ht, hf, fillFalse]

theorem parseColumn_boolean_cells (toks : List String)
    (h : (parseColumn toks).1 = ColumnDtype.booleanD) :
    (parseColumn toks).2
      = toks.map (fun t => Cell.boolCell (decide (t ∈ trueTokens))) := by
  have hcb : (convertColumn toks).1 = ColumnDtype.booleanD := by
    rw [← parseColumn_fst]; exact h
  obtain ⟨hcells, hmem⟩ := convertColumn_boolean toks hcb
  unfold parseColumn boolFillPass
  rw [if_pos hcb]
  show (convertColumn toks).2.map fillFalse = _
  rw [hcells, List.map_map]
  exact List.map_congr_left (fun t ht => flexCell_fill t (hmem t ht).1 (hmem t ht).2)

/-- The `fillna(False)` post-pass of `CsvParser.parse` is dead code: it
selects boolean-dtype columns, but a column reaches boolean dtype only when
no token was NA or unrecognized, so it already has no null to fill — on
every column the parse result equals the raw conversion result. -/
theorem parseColumn_eq_convertColumn (toks : List String) :
    parseColumn toks = convertColumn toks := by
  unfold parseColumn boolFillPass
  by_cases h : (convertColumn toks).1 = ColumnDtype.booleanD
  · rw [if_pos h]
    obtain ⟨hcells, hmem⟩ := convertColumn_boolean toks h
    have hmap : (convertColumn toks).2.map fillFalse = (convertColumn toks).2 := by
      rw [hcells, List.map_map]
      refine List.map_congr_left ?_
      intro t ht
      rcases hmem t ht with ⟨hna, h12⟩
      by_cases h1 : t ∈ trueTokens
      · simp [flexCell, classifyBoolToken, hna, h1, fillFalse]
      · have h2 : t ∈ falseTokens := h12.resolve_left h1
        simp [flexCell, classifyBoolToken, hna, h1, h2, fillFalse]
    rw [hmap]
  · rw [if_neg h]

/-- C1: the claim fails on the code at its own example.  With `na_filter` on
(the default), the pandas tokenizer checks the default NA set before the
`false_values` set, so the empty string is classified NA: the column
`["true", "", "FALSE", "1"]` converts to an object-dtype column
`[True, NaN, False, True]`, the `fillna(False)` post-pass — which selects
only boolean-dtype columns — does not apply to it, and the null cell
survives parsing; the result is not the claimed boolean column
`[true, false, false, true]`, and the code contradicts its own comments
(`Empty strings from the CSV will be treated as False`). -/
theorem csv_boolean_example_null_survives :
    parseColumn ["true", "", "FALSE", "1"]
      = (ColumnDtype.objectD,
         [Cell.boolCell true, Cell.nullCell, Cell.boolCell false,
          Cell.boolCell true])
    ∧ Cell.nullCell ∈ (parseColumn ["true", "", "FALSE", "1"]).2
    ∧ parseColumn ["true", "", "FALSE", "1"]
        ≠ (ColumnDtype.booleanD,
           [Cell.boolCell true, Cell.boolCell false, Cell.boolCell false,
            Cell.boolCell true]) := by
  exact ⟨by decide, by decide, by decide⟩
